import Mathlib

/-!
Shallow embedding of `github_updater.py` (GitHub Repository Automation System).

The Python script is single-threaded and synchronous.  Every interaction with
the outside world (the `random` module, `datetime.now()`, the local `git`
binary, the GitHub REST API, `time.sleep`) is modelled explicitly:

* randomness is an oracle stream of naturals (`Rng`); `random.randint`,
  `random.choice` and `random.sample` are defined over it exactly as the
  library documents them (uniform draw = next natural reduced mod the range,
  `sample` = repeated draw-and-remove without replacement);
* `random.uniform` produces Python floats whose textual rendering is outside
  the embedding, so the oracle carries a second stream holding the rendered
  decimal text of each uniform draw;
* the current time is a record of the formatted strings the script asks
  `datetime` for (`Clock`);
* external commands and API calls succeed or fail according to environment
  oracles (`List String → Bool`, `PrStep → Bool`, `Activity → ActResult`);
* observable behaviour (log lines, activity invocations, sleeps) is returned
  as an explicit trace (`Ev`).
-/

namespace GithubUpdater

/-- Oracle for the `random` module: a stream of naturals driving integer
draws, plus a stream holding the rendered decimal text of `random.uniform`
draws (Python float formatting is outside the embedding). -/
structure Rng where
  nats : List Nat
  floats : List String
deriving Repr, DecidableEq

/-- Draw the next natural from the oracle (an exhausted stream keeps
yielding 0; every concrete witness uses a long enough stream). -/
def Rng.next (g : Rng) : Nat × Rng :=
  match g.nats with
  | [] => (0, g)
  | n :: rest => (n, { g with nats := rest })

/-- Draw the rendered text of the next `random.uniform` result. -/
def Rng.nextFloat (g : Rng) : String × Rng :=
  match g.floats with
  | [] => ("0.5", g)
  | s :: rest => (s, { g with floats := rest })

/-- Embeds `random.randint(a, b)`: uniform integer in `[a, b]` (inclusive). -/
def randint (a b : Nat) (g : Rng) : Nat × Rng :=
  let (n, g') := g.next
  (a + n % (b - a + 1), g')

/-- Embeds `random.choice(l)`: uniform element of a non-empty list. -/
def choice [Inhabited α] (l : List α) (g : Rng) : α × Rng :=
  let (n, g') := g.next
  (l.getD (n % l.length) default, g')

/-- Embeds `random.sample(l, k)`: `k` distinct elements of `l` in random order,
drawn one at a time, each removed from the population after being drawn. -/
def sample [Inhabited α] (l : List α) (k : Nat) (g : Rng) : List α × Rng :=
  match k with
  | 0 => ([], g)
  | k + 1 =>
    match l with
    | [] => ([], g)
    | x :: xs =>
      let (n, g') := g.next
      let i := n % (x :: xs).length
      let y := (x :: xs).getD i default
      let rest := (x :: xs).take i ++ (x :: xs).drop (i + 1)
      let (ys, g'') := sample rest k g'
      (y :: ys, g'')

/-- Python `sep.join(parts)`. -/
def pyJoin (sep : String) : List String → String
  | [] => ""
  | [x] => x
  | x :: xs => x ++ sep ++ pyJoin sep xs

/-- Run external commands (or steps) in order, stopping at the first failure:
the result lists exactly the commands that were started (the failing one
included) and whether the whole sequence succeeded.  This is the semantics of
a Python block of consecutive `subprocess.run(..., check=True)` calls under a
surrounding `try`. -/
def runSeq (p : α → Bool) : List α → List α × Bool
  | [] => ([], true)
  | c :: cs =>
    if p c then
      let r := runSeq p cs
      (c :: r.1, r.2)
    else ([c], false)

section RandomLemmas

lemma randint_le (a b : Nat) (g : Rng) (hab : a ≤ b) :
    a ≤ (randint a b g).1 ∧ (randint a b g).1 ≤ b := by
  unfold randint
  constructor
  · simp
  · have h : (g.next.1) % (b - a + 1) < b - a + 1 := Nat.mod_lt _ (by omega)
    simp only
    omega

lemma choice_mem [Inhabited α] (l : List α) (g : Rng) (hl : l ≠ []) :
    (choice l g).1 ∈ l := by
  unfold choice
  have hlen : 0 < l.length := List.length_pos.mpr hl
  have hlt : (g.next.1) % l.length < l.length := Nat.mod_lt _ hlen
  simp only
  rw [List.getD_eq_getElem l default hlt]
  exact List.getElem_mem hlt

lemma sample_length [Inhabited α] (k : Nat) (l : List α) (g : Rng) :
    ((sample l k g).1).length = min k l.length := by
  induction k generalizing l g with
  | zero => simp [sample]
  | succ k ih =>
    cases l with
    | nil => simp [sample]
    | cons x xs =>
      unfold sample
      simp only [List.length_cons]
      have hpos : 0 < xs.length + 1 := Nat.succ_pos _
      have hi : (g.next.1) % (xs.length + 1) < xs.length + 1 := Nat.mod_lt _ hpos
      set i := (g.next.1) % (xs.length + 1) with hidef
      have htake : ((x :: xs).take i).length = i := by
        rw [List.length_take]
        simp only [List.length_cons]
        omega
      have hdrop : ((x :: xs).drop (i + 1)).length = xs.length - i := by
        rw [List.length_drop]
        simp only [List.length_cons]
        omega
      simp only [ih, List.length_append, htake, hdrop]
      omega

lemma sample_perm [Inhabited α] (k : Nat) (l : List α) (g : Rng) :
    ∃ r : List α, l.Perm ((sample l k g).1 ++ r) := by
  induction k generalizing l g with
  | zero => exact ⟨l, by simp [sample]⟩
  | succ k ih =>
    cases l with
    | nil => exact ⟨[], by simp [sample]⟩
    | cons x xs =>
      have hi : (g.next.1) % (x :: xs).length < (x :: xs).length :=
        Nat.mod_lt _ (by simp)
      obtain ⟨r, hr⟩ :=
        ih ((x :: xs).take ((g.next.1) % (x :: xs).length) ++
            (x :: xs).drop ((g.next.1) % (x :: xs).length + 1)) g.next.2
      refine ⟨r, ?_⟩
      have hdecomp : x :: xs =
          (x :: xs).take ((g.next.1) % (x :: xs).length) ++
          (x :: xs)[(g.next.1) % (x :: xs).length] ::
          (x :: xs).drop ((g.next.1) % (x :: xs).length + 1) := by
        conv_lhs => rw [← List.take_append_drop ((g.next.1) % (x :: xs).length) (x :: xs)]
        rw [List.drop_eq_getElem_cons hi]
      have h1 : (x :: xs).Perm
          ((x :: xs)[(g.next.1) % (x :: xs).length] ::
           ((x :: xs).take ((g.next.1) % (x :: xs).length) ++
            (x :: xs).drop ((g.next.1) % (x :: xs).length + 1))) := by
        conv_lhs => rw [hdecomp]
        exact List.perm_middle
      have h2 := h1.trans (hr.cons ((x :: xs)[(g.next.1) % (x :: xs).length]))
      have hs : (sample (x :: xs) (k + 1) g).1 =
          (x :: xs).getD ((g.next.1) % (x :: xs).length) default ::
          (sample ((x :: xs).take ((g.next.1) % (x :: xs).length) ++
                   (x :: xs).drop ((g.next.1) % (x :: xs).length + 1)) k g.next.2).1 := rfl
      rw [hs, List.getD_eq_getElem _ default hi]
      exact h2

lemma sample_nodup [Inhabited α] (k : Nat) (l : List α) (g : Rng)
    (h : l.Nodup) : ((sample l k g).1).Nodup := by
  obtain ⟨r, hr⟩ := sample_perm k l g
  exact ((hr.nodup_iff.mp h).sublist (List.sublist_append_left _ _))

lemma sample_subset [Inhabited α] (k : Nat) (l : List α) (g : Rng) :
    (sample l k g).1 ⊆ l := by
  obtain ⟨r, hr⟩ := sample_perm k l g
  intro a ha
  exact hr.symm.subset (List.mem_append_left _ ha)

lemma runSeq_exec (p : α → Bool) (l : List α) :
    (runSeq p l).1 = l.takeWhile p ++ (l.dropWhile p).take 1 := by
  induction l with
  | nil => simp [runSeq]
  | cons c cs ih =>
    by_cases h : p c
    · simp [runSeq, h, List.takeWhile_cons, List.dropWhile_cons, ih]
    · simp [runSeq, h, List.takeWhile_cons, List.dropWhile_cons]

lemma runSeq_ok (p : α → Bool) (l : List α) :
    (runSeq p l).2 = l.all p := by
  induction l with
  | nil => simp [runSeq]
  | cons c cs ih =>
    by_cases h : p c
    · simp [runSeq, h, ih]
    · simp [runSeq, h]

lemma str_data_append (a b : String) : (a ++ b).data = a.data ++ b.data := by
  cases a; cases b; rfl

lemma str_append_ne_empty (a b : String) (h : a ≠ "") : a ++ b ≠ "" := by
  intro hab
  apply h
  have hdata := congrArg String.data hab
  rw [str_data_append] at hdata
  have : a.data = [] := (List.append_eq_nil.mp hdata).1
  cases a
  simpa [String.ext_iff]

lemma pyJoin_cons_ne_empty (sep : String) (x : String) (xs : List String)
    (h : x ≠ "") : pyJoin sep (x :: xs) ≠ "" := by
  cases xs with
  | nil => simpa [pyJoin]
  | cons y ys =>
    simp only [pyJoin]
    exact str_append_ne_empty _ _ (str_append_ne_empty _ _ h)

end RandomLemmas

/-- The formatted strings the script obtains from `datetime`; the embedding
treats the wall clock as an abstract environment (one instant per run of a
generator, matching the script's back-to-back `datetime.now()` calls). -/
structure Clock where
  /-- Result of `datetime.now().strftime('%Y-%m-%d %H:%M:%S')`. -/
  dateTimeStr : String
  /-- Result of `datetime.now().isoformat()`. -/
  isoStr : String
  /-- Result of `str(datetime.now())`. -/
  nowStr : String
  /-- Result of `datetime.now().strftime('%Y-%m-%d')`. -/
  dateStr : String
  /-- Result of `datetime.now().strftime('%Y%m%d_%H%M%S')`. -/
  fileStamp : String
deriving Repr, DecidableEq

/-- Topics list of `_generate_markdown_content`. -/
def topics : List String :=
  ["Development", "Testing", "Documentation", "Features", "Performance",
   "Architecture", "Security", "Deployment", "Monitoring", "Analytics"]

/-- Sections list of `_generate_markdown_content`. -/
def mdSections : List String :=
  ["Requirements Analysis", "Design Patterns", "Implementation Details",
   "Testing Strategy", "Performance Optimization", "Security Considerations",
   "Deployment Process", "Monitoring & Logging", "Future Enhancements", "Risk Assessment"]

/-- Technologies list of `_generate_markdown_content`. -/
def technologies : List String :=
  ["React", "Node.js", "Python", "Docker", "Kubernetes", "AWS", "MongoDB",
   "Redis", "GraphQL", "TypeScript"]

/-- First random-paragraph pool of `_generate_markdown_content`. -/
def mdParagraphs1 : List String :=
  ["The implementation requires careful consideration of scalability, performance, and maintainability factors.",
   "We have identified several key areas that need immediate attention and long-term planning.",
   "The current architecture supports high availability and fault tolerance through distributed design patterns."]

/-- Second random-paragraph pool of `_generate_markdown_content`. -/
def mdParagraphs2 : List String :=
  ["The technical implementation involves multiple microservices communicating through event-driven architecture.",
   "We utilize containerization and orchestration for seamless deployment and scaling capabilities.",
   "The system incorporates real-time monitoring, alerting, and automated recovery mechanisms."]

/-- The status glyph `'✅' if random.choice([True, False]) else '⚠️'`. -/
def statusIcon (b : Bool) : String := if b then "✅" else "⚠️"

/-- Python `str.lower()` restricted to ASCII, which is all the script feeds it. -/
def pyLower (s : String) : String := s.toLower

/-- Embeds `_generate_markdown_content`: fills the big markdown template with random
values, in the order the f-string evaluates them. -/
def generate_markdown_content (clock : Clock) (g : Rng) : String × Rng :=
  let (topic, g) := choice topics g
  let (docId, g) := randint 10000 99999 g
  let (vA, g) := randint 1 5 g
  let (vB, g) := randint 0 9 g
  let (vC, g) := randint 0 9 g
  let (techs, g) := sample technologies 3 g
  let (sec1, g) := choice mdSections g
  let (par1, g) := choice mdParagraphs1 g
  let (scal, g) := randint 10 1000 g
  let (respReq, g) := randint 100 500 g
  let (availA, g) := randint 95 99 g
  let (availB, g) := randint 5 9 g
  let (sec2, g) := choice mdSections g
  let (par2, g) := choice mdParagraphs2 g
  let (respTgt, g) := randint 100 300 g
  let (respCur, g) := randint 80 250 g
  let (respOk, g) := choice [true, false] g
  let (thrTgt, g) := randint 1000 5000 g
  let (thrCur, g) := randint 800 4500 g
  let (thrOk, g) := choice [true, false] g
  let (errTgt, g) := g.nextFloat
  let (errCur, g) := g.nextFloat
  let (errOk, g) := choice [true, false] g
  let (cpuTgt, g) := randint 60 80 g
  let (cpuCur, g) := randint 45 75 g
  let (cpuOk, g) := choice [true, false] g
  let (refA, g) := randint 1 3 g
  let (refB, g) := randint 0 9 g
  let content :=
    "# " ++ topic ++ " Technical Documentation\n\n" ++
    "Generated on: " ++ clock.dateTimeStr ++ "\n" ++
    "Document ID: " ++ toString docId ++ "\n" ++
    "Version: " ++ toString vA ++ "." ++ toString vB ++ "." ++ toString vC ++ "\n\n" ++
    "## Executive Summary\n" ++
    "This document provides comprehensive information about " ++ pyLower topic ++
    " implementation in our project. The analysis covers technical requirements, implementation strategies, and best practices for achieving optimal results.\n\n" ++
    "## Technical Overview\n" ++
    "Our " ++ pyLower topic ++ " approach leverages modern technologies including " ++
    pyJoin ", " techs ++
    " to deliver a robust and scalable solution. The implementation follows industry best practices and adheres to established design patterns.\n\n" ++
    "## Detailed Analysis\n\n" ++
    "### " ++ sec1 ++ "\n" ++ par1 ++ "\n\n" ++
    "#### Key Requirements\n" ++
    "- **Scalability**: Handle " ++ toString scal ++ "K+ concurrent users\n" ++
    "- **Performance**: Response time < " ++ toString respReq ++ "ms\n" ++
    "- **Availability**: " ++ toString availA ++ "." ++ toString availB ++ "% uptime SLA\n" ++
    "- **Security**: Enterprise-grade authentication and authorization\n" ++
    "- **Compliance**: GDPR, HIPAA, SOC2 compliance requirements\n\n" ++
    "### " ++ sec2 ++ "\n" ++ par2 ++ "\n\n" ++
    "#### Implementation Steps\n" ++
    "1. **Phase 1**: Infrastructure setup and base configuration\n" ++
    "   - Set up development and staging environments\n" ++
    "   - Configure CI/CD pipelines\n" ++
    "   - Establish monitoring and logging infrastructure\n\n" ++
    "2. **Phase 2**: Core functionality development\n" ++
    "   - Implement core business logic\n" ++
    "   - Develop API endpoints and data models\n" ++
    "   - Create user interface components\n\n" ++
    "3. **Phase 3**: Integration and testing\n" ++
    "   - End-to-end testing implementation\n" ++
    "   - Performance and load testing\n" ++
    "   - Security vulnerability assessment\n\n" ++
    "4. **Phase 4**: Production deployment\n" ++
    "   - Blue-green deployment strategy\n" ++
    "   - Database migration procedures\n" ++
    "   - Rollback contingency planning\n\n" ++
    "### Performance Metrics\n" ++
    "| Metric | Target | Current | Status |\n" ++
    "|--------|--------|---------|--------|\n" ++
    "| Response Time | <" ++ toString respTgt ++ "ms | " ++ toString respCur ++ "ms | " ++ statusIcon respOk ++ " |\n" ++
    "| Throughput | " ++ toString thrTgt ++ " RPS | " ++ toString thrCur ++ " RPS | " ++ statusIcon thrOk ++ " |\n" ++
    "| Error Rate | <" ++ errTgt ++ "% | " ++ errCur ++ "% | " ++ statusIcon errOk ++ " |\n" ++
    "| CPU Usage | <" ++ toString cpuTgt ++ "% | " ++ toString cpuCur ++ "% | " ++ statusIcon cpuOk ++ " |\n\n" ++
    "## Risk Assessment\n\n" ++
    "### High Priority Risks\n" ++
    "- **Data Security**: Implement end-to-end encryption for sensitive data\n" ++
    "- **System Availability**: Ensure redundancy and failover mechanisms\n" ++
    "- **Performance Degradation**: Monitor and optimize critical code paths\n\n" ++
    "### Mitigation Strategies\n" ++
    "- Regular security audits and penetration testing\n" ++
    "- Automated backup and disaster recovery procedures\n" ++
    "- Continuous performance monitoring and alerting\n" ++
    "- Regular dependency updates and vulnerability scanning\n\n" ++
    "## Future Roadmap\n\n" ++
    "### Q1 Objectives\n" ++
    "- Implement advanced caching strategies\n" ++
    "- Enhance monitoring and observability\n" ++
    "- Optimize database query performance\n\n" ++
    "### Q2 Objectives\n" ++
    "- Machine learning integration for predictive analytics\n" ++
    "- Advanced user personalization features\n" ++
    "- Multi-region deployment for global availability\n\n" ++
    "### Q3 Objectives\n" ++
    "- Real-time data processing capabilities\n" ++
    "- Advanced security features (zero-trust architecture)\n" ++
    "- Enhanced developer tools and documentation\n\n" ++
    "## Conclusion\n" ++
    "The " ++ pyLower topic ++
    " implementation represents a significant step forward in our technical capabilities. By following the outlined approach and maintaining focus on quality, security, and performance, we can deliver exceptional value to our users while maintaining operational excellence.\n\n" ++
    "## References\n" ++
    "- Technical Architecture Document v" ++ toString refA ++ "." ++ toString refB ++ "\n" ++
    "- Security Guidelines and Best Practices\n" ++
    "- Performance Optimization Handbook\n" ++
    "- Deployment and Operations Manual\n\n" ++
    "---\n" ++
    "*Document generated by GitHub Updater System*\n" ++
    "*Classification: Internal Use*\n" ++
    "*Last Updated: " ++ clock.dateTimeStr ++ "*\n"
  (content, g)

/-- Name pool for the sample-data lines of `_generate_text_content`. -/
def textEntryNames : List String := ["Alpha", "Beta", "Gamma", "Delta", "Epsilon"]

/-- The `for i in range(...)` loop of `_generate_text_content`, emitting
`Entry {i+1}: {name}-{number}` lines. -/
def textEntryLines : Nat → Nat → Rng → List String × Rng
  | 0, _, g => ([], g)
  | n + 1, i, g =>
    let (w, g) := choice textEntryNames g
    let (m, g) := randint 100 999 g
    let (rest, g') := textEntryLines n (i + 1) g
    (("Entry " ++ toString (i + 1) ++ ": " ++ w ++ "-" ++ toString m) :: rest, g')

/-- Embeds `_generate_text_content`: header lines, 3 to 8 random entries, footer,
joined with newlines. -/
def generate_text_content (clock : Clock) (g : Rng) : String × Rng :=
  let (rid, g) := randint 10000 99999 g
  let (count, g) := randint 3 8 g
  let (entries, g) := textEntryLines count 0 g
  let lines :=
    ["Generated at: " ++ clock.nowStr,
     "Random ID: " ++ toString rid,
     "",
     "Sample data entries:"] ++ entries ++
    ["",
     "Status: Active",
     "Last updated: " ++ clock.dateStr]
  (pyJoin "\n" lines, g)

/-- Python `str.title()` after `replace('_', ' ')`, restricted to the ASCII
identifiers the script feeds it: uppercase the first letter of each
alphabetic run, lowercase the rest. -/
def titleChars : List Char → Bool → List Char
  | [], _ => []
  | c :: cs, atStart =>
    if c.isAlpha then
      (if atStart then c.toUpper else c.toLower) :: titleChars cs false
    else c :: titleChars cs true

/-- Embeds `function_name.replace('_', ' ').title()`. -/
def pyTitle (s : String) : String := String.mk (titleChars (s.replace "_" " ").data true)

/-- Function-name pool of `_generate_python_content`. -/
def functionNames : List String :=
  ["process_data", "calculate_metrics", "format_output", "validate_input", "generate_report"]

/-- Embeds `_generate_python_content`: the Python-module template. -/
def generate_python_content (clock : Clock) (g : Rng) : String × Rng :=
  let (fn, g) := choice functionNames g
  let (sampleVal, g) := randint 1 1000 g
  let content :=
    "\"\"\"\nAuto-generated Python module\nCreated: " ++ clock.dateTimeStr ++
    "\n\"\"\"\n\nimport random\nfrom datetime import datetime\n\n\ndef " ++ fn ++
    "(data):\n    \"\"\"\n    " ++ pyTitle fn ++
    " function\n\n    Args:\n        data: Input data to process\n\n    Returns:\n        Processed result\n    \"\"\"\n    result = \x7b\n        \x27timestamp\x27: datetime.now().isoformat(),\n        \x27processed\x27: True,\n        \x27value\x27: random.randint(1, 100)\n    \x7d\n    return result\n\n\nif __name__ == \"__main__\":\n    sample_data = \x7b\"test\": True, \"value\": " ++
    toString sampleVal ++
    "\x7d\n    result = " ++ fn ++ "(sample_data)\n    print(f\"Result: \x7bresult\x7d\")\n"
  (content, g)

/-- Embeds `json.dumps` applied to a list of strings with default separators, as in
the `features:` line of `_generate_js_content`. -/
def dumpsStrList (xs : List String) : String :=
  "[" ++ pyJoin ", " (xs.map (fun s => "\"" ++ s ++ "\"")) ++ "]"

/-- Feature pool sampled by `_generate_js_content`. -/
def jsFeaturePool : List String := ["auth", "cache", "api", "ui", "analytics"]

/-- Embeds `_generate_js_content`: the JavaScript-module template. -/
def generate_js_content (clock : Clock) (g : Rng) : String × Rng :=
  let (vA, g) := randint 1 5 g
  let (vB, g) := randint 0 9 g
  let (vC, g) := randint 0 9 g
  let (features, g) := sample jsFeaturePool 3 g
  let (debugOn, g) := choice [true, false] g
  let (timeoutMs, g) := randint 1000 5000 g
  let (retries, g) := randint 1 5 g
  let content :=
    "/**\n * Auto-generated JavaScript module\n * Created: " ++ clock.dateTimeStr ++
    "\n */\n\nconst config = \x7b\n    version: \x27" ++
    toString vA ++ "." ++ toString vB ++ "." ++ toString vC ++
    "\x27,\n    timestamp: \x27" ++ clock.isoStr ++
    "\x27,\n    features: " ++ dumpsStrList features ++
    ",\n    settings: \x7b\n        debug: " ++ (if debugOn then "true" else "false") ++
    ",\n        timeout: " ++ toString timeoutMs ++
    ",\n        retries: " ++ toString retries ++
    "\n    \x7d\n\x7d;\n\nfunction processRequest(data) \x7b\n    return \x7b\n        ...data,\n        processed: true,\n        timestamp: new Date().toISOString(),\n        id: Math.floor(Math.random() * 10000)\n    \x7d;\n\x7d\n\nfunction validateData(input) \x7b\n    if (!input || typeof input !== \x27object\x27) \x7b\n        return false;\n    \x7d\n    return true;\n\x7d\n\nmodule.exports = \x7b config, processRequest, validateData \x7d;\n"
  (content, g)

/-- JSON values as `_generate_json_content` builds them.  Numbers carry their
rendered text: non-negative integers render via `toString`, and the one
float leaf (`sampling_rate`) carries the rendered text of the
`random.uniform` draw from the oracle. -/
inductive JVal where
  | jstr (s : String)
  | jnum (text : String)
  | jbool (b : Bool)
  | jarr (elems : List JVal)
  | jobj (fields : List (String × JVal))
deriving Repr

/-- Indentation of `json.dumps(..., indent=2)`: two spaces per level. -/
def jpad (n : Nat) : String := String.mk (List.replicate (2 * n) ' ')

/-- JSON string escaping (quote and backslash; the script's payloads contain
no control characters). -/
def jescape (s : String) : String :=
  String.mk (s.data.foldr (fun c acc =>
    if c = '"' || c = '\\' then '\\' :: c :: acc else c :: acc) [])

/-- A JSON string literal. -/
def jquote (s : String) : String := "\"" ++ jescape s ++ "\""

mutual

/-- Embeds `json.dumps(v, indent=2)`, value at indentation level `lvl`. -/
def dumpVal : Nat → JVal → String
  | _, .jstr s => jquote s
  | _, .jnum t => t
  | _, .jbool b => if b then "true" else "false"
  | _, .jarr [] => "[]"
  | lvl, .jarr (x :: xs) => "[\n" ++ dumpItems (lvl + 1) x xs ++ "\n" ++ jpad lvl ++ "]"
  | _, .jobj [] => "\x7b\x7d"
  | lvl, .jobj (f :: fs) => "\x7b\n" ++ dumpFields (lvl + 1) f fs ++ "\n" ++ jpad lvl ++ "\x7d"
termination_by _ v => sizeOf v

/-- Comma-and-newline separated array items. -/
def dumpItems : Nat → JVal → List JVal → String
  | lvl, x, [] => jpad lvl ++ dumpVal lvl x
  | lvl, x, y :: ys => jpad lvl ++ dumpVal lvl x ++ ",\n" ++ dumpItems lvl y ys
termination_by _ x xs => 1 + sizeOf x + sizeOf xs

/-- Comma-and-newline separated object members with `": "` key separator. -/
def dumpFields : Nat → (String × JVal) → List (String × JVal) → String
  | lvl, (k, v), [] => jpad lvl ++ jquote k ++ ": " ++ dumpVal lvl v
  | lvl, (k, v), f :: fs => jpad lvl ++ jquote k ++ ": " ++ dumpVal lvl v ++ ",\n" ++ dumpFields lvl f fs
termination_by _ kv fs => 1 + sizeOf kv + sizeOf fs

end

/-- Embeds `json.dumps(data, indent=2)`. -/
def pyJsonDumps2 (v : JVal) : String := dumpVal 0 v

/-- Python 064x formatting of the checksum draw: lowercase hex digits,
zero-padded on the left to 64 characters. -/
def hex64 (n : Nat) : String :=
  let ds := Nat.toDigits 16 n
  String.mk (List.replicate (64 - ds.length) '0' ++ ds)

/-- One element of the `monitoring_targets` comprehension. -/
def jsonMonitoringTarget (g : Rng) : JVal × Rng :=
  let (epNum, g) := randint 1 10 g
  let (dom, g) := choice ["example.com", "myapp.io"] g
  let (ver, g) := randint 1 3 g
  let (pathWord, g) := choice ["users", "orders", "products", "analytics"] g
  let (method, g) := choice ["GET", "POST"] g
  let (tout, g) := randint 5 30 g
  let (iv, g) := randint 30 300 g
  (.jobj [("name", .jstr ("endpoint-" ++ toString epNum)),
          ("url", .jstr ("https://api." ++ dom ++ "/v" ++ toString ver ++ "/" ++ pathWord)),
          ("method", .jstr method),
          ("expected_status", .jnum "200"),
          ("timeout", .jnum (toString tout)),
          ("interval", .jnum (toString iv))], g)

/-- The `monitoring_targets` list comprehension. -/
def jsonMonitoringTargets : Nat → Rng → List JVal × Rng
  | 0, g => ([], g)
  | n + 1, g =>
    let (t, g) := jsonMonitoringTarget g
    let (rest, g') := jsonMonitoringTargets n g
    (t :: rest, g')

/-- Embeds `_generate_json_content`: builds the configuration dictionary with its
random draws in source order and serialises it with `json.dumps(..., indent=2)`. -/
def generate_json_content (clock : Clock) (g : Rng) : String × Rng :=
  let (idNum, g) := randint 100000 999999 g
  let (vA, g) := randint 1 10 g
  let (vB, g) := randint 0 9 g
  let (vC, g) := randint 0 9 g
  let (envName, g) := choice ["development", "staging", "production"] g
  let (region, g) := choice ["us-east-1", "us-west-2", "eu-west-1", "ap-southeast-1"] g
  let (purpose, g) := choice ["configuration", "feature_flags", "deployment_settings", "monitoring_config", "security_policies"] g
  let (checksum, g) := randint (10 ^ 63) (10 ^ 64 - 1) g
  let (svc, g) := choice ["auth", "api", "web", "worker", "scheduler"] g
  let (port, g) := randint 3000 9000 g
  let (protocol, g) := choice ["http", "https", "grpc"] g
  let (hcInterval, g) := randint 10 60 g
  let (hcTimeout, g) := randint 5 30 g
  let (hcRetries, g) := randint 2 5 g
  let (dbPrim, g) := randint 1 5 g
  let (dbName, g) := choice ["prod", "staging", "dev"] g
  let (poolSize, g) := randint 10 50 g
  let (maxConn, g) := randint 100 500 g
  let (connTimeout, g) := randint 5 30 g
  let (replicaOn, g) := choice [true, false] g
  let (replicaHi, g) := randint 2 4 g
  let (lag, g) := randint 100 1000 g
  let (redisDb, g) := randint 0 15 g
  let (redisMaxConn, g) := randint 50 200 g
  let (redisPool, g) := randint 10 50 g
  let (redisTtl, g) := randint 300 3600 g
  let (provK, g) := randint 2 4 g
  let (providers, g) := sample ["oauth2", "saml", "ldap", "jwt", "api_key"] provK g
  let (sessTimeout, g) := randint 1800 7200 g
  let (maxSess, g) := randint 3 10 g
  let (cacheStrat, g) := choice ["lru", "lfu", "ttl", "write_through", "write_behind"] g
  let (cacheMax, g) := randint 100 1000 g
  let (cacheTtl, g) := randint 300 1800 g
  let (rpm, g) := randint 100 1000 g
  let (burst, g) := randint 10 100 g
  let (windowSize, g) := randint 60 300 g
  let (metricsIv, g) := randint 10 60 g
  let (logLevel, g) := choice ["debug", "info", "warn", "error"] g
  let (tracing, g) := choice [true, false] g
  let (sampling, g) := g.nextFloat
  let (notifOn, g) := choice [true, false] g
  let (chanK, g) := randint 2 4 g
  let (channels, g) := sample ["email", "slack", "webhook", "sms", "push"] chanK g
  let (notifRetry, g) := randint 3 10 g
  let (notifBatch, g) := randint 10 100 g
  let (corsApp, g) := choice ["app", "admin", "api"] g
  let (corsDom, g) := choice ["example.com", "myapp.io", "platform.net"] g
  let (keyRot, g) := randint 30 365 g
  let (toReq, g) := randint 5 30 g
  let (toDb, g) := randint 5 15 g
  let (toCache, g) := randint 1 5 g
  let (toExt, g) := randint 10 60 g
  let (maxReqSize, g) := randint 1 50 g
  let (maxUpload, g) := randint 10 100 g
  let (maxConcReq, g) := randint 100 1000 g
  let (minify, g) := choice [true, false] g
  let (deployStrat, g) := choice ["blue_green", "rolling", "canary"] g
  let (replicas, g) := randint 2 10 g
  let (minRep, g) := randint 2 5 g
  let (maxRep, g) := randint 10 50 g
  let (cpuThr, g) := randint 60 80 g
  let (memThr, g) := randint 70 85 g
  let (suDelay, g) := randint 10 30 g
  let (suPeriod, g) := randint 5 15 g
  let (suTimeout, g) := randint 1 5 g
  let (suFail, g) := randint 3 10 g
  let (lvPeriod, g) := randint 10 30 g
  let (lvTimeout, g) := randint 1 5 g
  let (lvFail, g) := randint 3 5 g
  let (tgtCount, g) := randint 3 8 g
  let (targets, g) := jsonMonitoringTargets tgtCount g
  let data : JVal := .jobj [
    ("metadata", .jobj [
      ("id", .jstr ("config-" ++ toString idNum)),
      ("timestamp", .jstr clock.isoStr),
      ("version", .jstr (toString vA ++ "." ++ toString vB ++ "." ++ toString vC)),
      ("environment", .jstr envName),
      ("region", .jstr region),
      ("created_by", .jstr "github_updater"),
      ("purpose", .jstr purpose),
      ("checksum", .jstr ("sha256:" ++ hex64 checksum))]),
    ("application", .jobj [
      ("name", .jstr ("service-" ++ svc)),
      ("description", .jstr "Microservice configuration for distributed architecture"),
      ("port", .jnum (toString port)),
      ("host", .jstr "0.0.0.0"),
      ("protocol", .jstr protocol),
      ("health_check", .jobj [
        ("enabled", .jbool true),
        ("endpoint", .jstr "/health"),
        ("interval", .jnum (toString hcInterval)),
        ("timeout", .jnum (toString hcTimeout)),
        ("retries", .jnum (toString hcRetries))])]),
    ("database", .jobj [
      ("primary", .jobj [
        ("host", .jstr ("db-primary-" ++ toString dbPrim ++ ".cluster.internal")),
        ("port", .jnum "5432"),
        ("database", .jstr ("app_" ++ dbName)),
        ("ssl", .jbool true),
        ("pool_size", .jnum (toString poolSize)),
        ("max_connections", .jnum (toString maxConn)),
        ("connection_timeout", .jnum (toString connTimeout))]),
      ("replica", .jobj [
        ("enabled", .jbool replicaOn),
        ("hosts", .jarr ((List.range' 1 (replicaHi - 1)).map (fun i => .jstr ("db-replica-" ++ toString i ++ ".cluster.internal")))),
        ("read_preference", .jstr "secondary_preferred"),
        ("lag_threshold", .jnum (toString lag))])]),
    ("redis", .jobj [
      ("enabled", .jbool true),
      ("host", .jstr "redis.cluster.internal"),
      ("port", .jnum "6379"),
      ("password_enabled", .jbool true),
      ("ssl", .jbool true),
      ("db", .jnum (toString redisDb)),
      ("max_connections", .jnum (toString redisMaxConn)),
      ("connection_pool_size", .jnum (toString redisPool)),
      ("default_ttl", .jnum (toString redisTtl))]),
    ("features", .jobj [
      ("authentication", .jobj [
        ("enabled", .jbool true),
        ("providers", .jarr (providers.map .jstr)),
        ("session_timeout", .jnum (toString sessTimeout)),
        ("max_sessions_per_user", .jnum (toString maxSess))]),
      ("caching", .jobj [
        ("enabled", .jbool true),
        ("strategy", .jstr cacheStrat),
        ("max_size", .jstr (toString cacheMax ++ "MB")),
        ("default_ttl", .jnum (toString cacheTtl))]),
      ("rate_limiting", .jobj [
        ("enabled", .jbool true),
        ("requests_per_minute", .jnum (toString rpm)),
        ("burst_capacity", .jnum (toString burst)),
        ("window_size", .jnum (toString windowSize))]),
      ("monitoring", .jobj [
        ("enabled", .jbool true),
        ("metrics_interval", .jnum (toString metricsIv)),
        ("log_level", .jstr logLevel),
        ("tracing_enabled", .jbool tracing),
        ("sampling_rate", .jnum sampling)]),
      ("notifications", .jobj [
        ("enabled", .jbool notifOn),
        ("channels", .jarr (channels.map .jstr)),
        ("retry_attempts", .jnum (toString notifRetry)),
        ("batch_size", .jnum (toString notifBatch))])]),
    ("security", .jobj [
      ("cors", .jobj [
        ("enabled", .jbool true),
        ("allowed_origins", .jarr [.jstr ("https://" ++ corsApp ++ "." ++ corsDom)]),
        ("allowed_methods", .jarr [.jstr "GET", .jstr "POST", .jstr "PUT", .jstr "DELETE", .jstr "OPTIONS"]),
        ("allowed_headers", .jarr [.jstr "Content-Type", .jstr "Authorization", .jstr "X-API-Key"])]),
      ("encryption", .jobj [
        ("algorithm", .jstr "AES-256-GCM"),
        ("key_rotation_days", .jnum (toString keyRot)),
        ("at_rest", .jbool true),
        ("in_transit", .jbool true)]),
      ("headers", .jobj [
        ("x_frame_options", .jstr "DENY"),
        ("x_content_type_options", .jstr "nosniff"),
        ("x_xss_protection", .jstr "1; mode=block"),
        ("strict_transport_security", .jstr "max-age=31536000; includeSubDomains")])]),
    ("performance", .jobj [
      ("timeouts", .jobj [
        ("request", .jnum (toString toReq)),
        ("database", .jnum (toString toDb)),
        ("cache", .jnum (toString toCache)),
        ("external_api", .jnum (toString toExt))]),
      ("limits", .jobj [
        ("max_request_size", .jstr (toString maxReqSize ++ "MB")),
        ("max_file_upload", .jstr (toString maxUpload ++ "MB")),
        ("max_concurrent_requests", .jnum (toString maxConcReq))]),
      ("optimization", .jobj [
        ("compression_enabled", .jbool true),
        ("minification", .jbool minify),
        ("cdn_enabled", .jbool true),
        ("lazy_loading", .jbool true)])]),
    ("deployment", .jobj [
      ("strategy", .jstr deployStrat),
      ("replicas", .jnum (toString replicas)),
      ("auto_scaling", .jobj [
        ("enabled", .jbool true),
        ("min_replicas", .jnum (toString minRep)),
        ("max_replicas", .jnum (toString maxRep)),
        ("cpu_threshold", .jnum (toString cpuThr)),
        ("memory_threshold", .jnum (toString memThr))]),
      ("health_checks", .jobj [
        ("startup_probe", .jobj [
          ("initial_delay", .jnum (toString suDelay)),
          ("period", .jnum (toString suPeriod)),
          ("timeout", .jnum (toString suTimeout)),
          ("failure_threshold", .jnum (toString suFail))]),
        ("liveness_probe", .jobj [
          ("period", .jnum (toString lvPeriod)),
          ("timeout", .jnum (toString lvTimeout)),
          ("failure_threshold", .jnum (toString lvFail))])])]),
    ("monitoring_targets", .jarr targets)]
  (pyJsonDumps2 data, g)

/-- Keys of `self.file_templates`, in dict insertion order. -/
def file_template_keys : List String := ["markdown", "json", "text", "python", "javascript"]

/-- Filename-stem pool of `create_random_content` (the script calls the
chosen element `suffix` although it is used as the stem). -/
def prefixes : List String := ["data", "config", "sample", "test", "demo", "temp", "generated"]

/-- The `extensions` dict of `create_random_content`. -/
def extensions : List (String × String) :=
  [("markdown", ".md"), ("json", ".json"), ("text", ".txt"), ("python", ".py"), ("javascript", ".js")]

/-- Lookup `extensions[file_type]` (every call site uses a present key). -/
def extensionFor (file_type : String) : String := (extensions.lookup file_type).getD ""

/-- Dispatch through the `self.file_templates` dict. -/
def file_templates (file_type : String) : Clock → Rng → String × Rng :=
  if file_type = "markdown" then generate_markdown_content
  else if file_type = "json" then generate_json_content
  else if file_type = "text" then generate_text_content
  else if file_type = "python" then generate_python_content
  else if file_type = "javascript" then generate_js_content
  else fun _ g => ("", g)

/-- The content kind `create_random_content` draws first. -/
def chosenFileType (g : Rng) : String := (choice file_template_keys g).1

/-- Embeds `create_random_content`: draws the kind and the stem, builds the
timestamped filename with the kind's extension, generates the payload, and
returns the relative path together with the file content it writes. -/
def create_random_content (clock : Clock) (g : Rng) : (String × String) × Rng :=
  let file_type := (choice file_template_keys g).1
  let g1 := (choice file_template_keys g).2
  let stem := (choice prefixes g1).1
  let g2 := (choice prefixes g1).2
  let filename := stem ++ "_" ++ clock.fileStamp ++ extensionFor file_type
  let relative_path := "gen_contents/" ++ filename
  let r := file_templates file_type clock g2
  ((relative_path, r.1), r.2)

/-- Argument vector of `git add <filename>`. -/
def addCmd (filename : String) : List String := ["git", "add", filename]

/-- Commit-message pool of `git_commit_and_push`. -/
def commit_messages (filename : String) : List String :=
  ["Add " ++ filename,
   "Create new content: " ++ filename,
   "Generate automated content: " ++ filename,
   "Update repository with " ++ filename,
   "Auto-commit: " ++ filename]

/-- Argument vector of `git commit -m <msg>`. -/
def commitCmd (msg : String) : List String := ["git", "commit", "-m", msg]

/-- Argument vector of the push in `git_commit_and_push`: the target branch
is the literal `main` (line 538 of the source). -/
def pushMainCmd : List String := ["git", "push", "origin", "main"]

/-- Embeds `git_commit_and_push`: add, commit with a random message, push to
`main`; a failing command (`CalledProcessError`) is caught and reported as
`False`.  `run` tells which commands succeed; the result carries the
commands actually started. -/
def git_commit_and_push (run : List String → Bool) (filename : String) (g : Rng) :
    (Bool × List (List String)) × Rng :=
  let commit_message := (choice (commit_messages filename) g).1
  let g' := (choice (commit_messages filename) g).2
  let r := runSeq run [addCmd filename, commitCmd commit_message, pushMainCmd]
  ((r.2, r.1), g')

/-- Embeds `create_and_commit_content`: generate a file, then commit and
push it (the filename, a non-empty path, passes the `if filename:` check). -/
def create_and_commit_content (run : List String → Bool) (clock : Clock) (g : Rng) :
    (Bool × List (List String)) × Rng :=
  let filename := (create_random_content clock g).1.1
  let g' := (create_random_content clock g).2
  if filename ≠ "" then git_commit_and_push run filename g'
  else ((false, []), g')

/-- The sequential steps of `create_and_merge_pr`, in source order. -/
inductive PrStep where
  | checkoutBranch | createContent | addFile | commitFile | pushBranch
  | createPull | waitMerge | mergePull | checkoutMain | pullMain | deleteBranch
deriving Repr, DecidableEq, Inhabited

/-- Step order of `create_and_merge_pr`. -/
def prSteps : List PrStep :=
  [.checkoutBranch, .createContent, .addFile, .commitFile, .pushBranch,
   .createPull, .waitMerge, .mergePull, .checkoutMain, .pullMain, .deleteBranch]

/-- Which steps can raise one of the caught exceptions
(`CalledProcessError` from a git call, `GithubException` from an API call);
content generation and `time.sleep` cannot. -/
def stepFallible : PrStep → Bool
  | .createContent => false
  | .waitMerge => false
  | _ => true

/-- Effective success of a step under environment `env`. -/
def effStep (env : PrStep → Bool) (s : PrStep) : Bool :=
  if stepFallible s then env s else true

/-- Observable events of the PR workflow. -/
inductive PrEv where
  | git (cmd : List String)
  | content (filename : String)
  | createPull (title body head base : String)
  | wait (secs : Nat)
  | mergePull
  | recovery (cmd : List String) (ok : Bool)
deriving Repr, DecidableEq

/-- Branch-name pool of the updater. -/
def branch_names : List String :=
  ["feature/new-component", "bugfix/navigation-fix", "enhancement/ui-improvements",
   "feature/api-updates", "hotfix/critical-bug", "feature/user-dashboard",
   "improvement/performance", "feature/data-export", "bugfix/form-validation",
   "enhancement/accessibility"]

/-- PR-title pool of `create_and_merge_pr`. -/
def pr_titles (filename : String) : List String :=
  ["Add new feature: " ++ filename, "Implement " ++ filename,
   "Update repository with " ++ filename, "Feature: " ++ filename ++ " addition"]

/-- The fixed PR body template of `create_and_merge_pr`. -/
def pr_body (filename : String) : String :=
  "## Changes\n- Added " ++ filename ++
  "\n- Auto-generated content for testing\n\n## Testing\n- [x] File created successfully\n- [x] Content is valid\n\n## Notes\nThis is an automated PR created by the GitHub updater system.\n"

/-- The event each step produces when it runs.  The PR is opened with
`base='main'` (line 618) and the post-merge checkout and pull target the
literal `main` (lines 631 and 632). -/
def prStepEv (branch_name filename title : String) : PrStep → PrEv
  | .checkoutBranch => .git ["git", "checkout", "-b", branch_name]
  | .createContent => .content filename
  | .addFile => .git ["git", "add", filename]
  | .commitFile => .git ["git", "commit", "-m", "Add " ++ filename ++ " for PR"]
  | .pushBranch => .git ["git", "push", "origin", branch_name]
  | .createPull => .createPull title (pr_body filename) branch_name "main"
  | .waitMerge => .wait 2
  | .mergePull => .mergePull
  | .checkoutMain => .git ["git", "checkout", "main"]
  | .pullMain => .git ["git", "pull", "origin", "main"]
  | .deleteBranch => .git ["git", "branch", "-d", branch_name]

/-- The recovery command the `except` handler runs with `check=False`
(line 643): a best-effort checkout of `main`. -/
def prRecoveryCmd : List String := ["git", "checkout", "main"]

/-- Embeds `create_and_merge_pr`: run the steps in order; the first failing
step aborts the rest, the handler attempts one recovery checkout of `main`
whose own outcome (`recoveryOk`) is swallowed, and the activity returns
`False`.  Random draws (branch name, filename, PR title) are taken up
front; in the script the filename and title draws happen between the steps,
which only matters for which oracle positions feed which draw. -/
def create_and_merge_pr (env : PrStep → Bool) (recoveryOk : Bool) (clock : Clock) (g : Rng) :
    (Bool × List PrEv) × Rng :=
  let bn := (choice branch_names g).1
  let g1 := (choice branch_names g).2
  let num := (randint 100 999 g1).1
  let g2 := (randint 100 999 g1).2
  let branch_name := bn ++ "-" ++ toString num
  let filename := (create_random_content clock g2).1.1
  let g3 := (create_random_content clock g2).2
  let title := (choice (pr_titles filename) g3).1
  let g' := (choice (pr_titles filename) g3).2
  let r := runSeq (effStep env) prSteps
  if r.2 then ((true, r.1.map (prStepEv branch_name filename title)), g')
  else ((false, r.1.map (prStepEv branch_name filename title) ++ [.recovery prRecoveryCmd recoveryOk]), g')

/-- The three activities of `run_single_cycle`, in list order. -/
inductive Activity where
  | commitContent | openIssue | openMergePr
deriving Repr, DecidableEq, Inhabited

/-- Exceptions an activity can raise (all `Exception` subclasses, hence all
caught by the per-activity handler of `run_single_cycle`). -/
inductive PyExc where
  | calledProcessError (msg : String)
  | githubException (msg : String)
  | otherError (msg : String)
deriving Repr, DecidableEq

/-- The rendered message of an exception. -/
def PyExc.text : PyExc → String
  | .calledProcessError m => m
  | .githubException m => m
  | .otherError m => m

/-- Outcome of invoking one activity function: a returned boolean, or a
raised exception. -/
inductive ActResult where
  | ok (success : Bool)
  | raised (e : PyExc)
deriving Repr, DecidableEq

/-- Observable events of the cycle runner and of `main`: log lines at their
levels, activity-function invocations, and sleeps (in seconds). -/
inductive Ev where
  | log (s : String)
  | warn (s : String)
  | err (s : String)
  | execStart (a : Activity)
  | sleep (secs : Int)
deriving Repr, DecidableEq

/-- Display names of the activities, from the `activities` list literal. -/
def activityName : Activity → String
  | .commitContent => "Creating and committing content"
  | .openIssue => "Creating GitHub issue"
  | .openMergePr => "Creating and merging PR"

/-- The `activities` list of `run_single_cycle` (name/function pairs in the
script; the function part is abstracted by the activity environment). -/
def cycleActivityList : List Activity := [.commitContent, .openIssue, .openMergePr]

/-- The selection line of `run_single_cycle`:
`random.sample(activities, k=random.randint(1, len(activities)))`. -/
def selectActivities (g : Rng) : List Activity × Rng :=
  let k := (randint 1 cycleActivityList.length g).1
  let g' := (randint 1 cycleActivityList.length g).2
  sample cycleActivityList k g'

/-- Trace of one loop body iteration of `run_single_cycle`: the `Executing`
log, the invocation, then the completed/failed/error line depending on the
outcome — a raised exception is caught by the `except Exception` handler
and logged. -/
def activityBlock (env : Activity → ActResult) (a : Activity) : List Ev :=
  [.log ("Executing: " ++ activityName a), .execStart a] ++
  (match env a with
   | .ok true => [.log ("Completed: " ++ activityName a)]
   | .ok false => [.warn ("Failed: " ++ activityName a)]
   | .raised e => [.err ("Error in " ++ activityName a ++ ": " ++ e.text)])

/-- The `for` loop of `run_single_cycle`: each selected activity's block
followed by the random 5–15 second delay. -/
def cycleLoop (env : Activity → ActResult) : List Activity → Rng → List Ev × Rng
  | [], g => ([], g)
  | a :: rest, g =>
    let d := (randint 5 15 g).1
    let g1 := (randint 5 15 g).2
    let r := cycleLoop env rest g1
    (activityBlock env a ++ [.sleep (d : Int)] ++ r.1, r.2)

/-- Embeds `run_single_cycle`. -/
def run_single_cycle (env : Activity → ActResult) (g : Rng) : List Ev × Rng :=
  let selected_activities := (selectActivities g).1
  let g1 := (selectActivities g).2
  let r := cycleLoop env selected_activities g1
  (.log "Starting update cycle..." :: r.1 ++ [.log "Update cycle completed"], r.2)

/-- How one iteration of the `while True` loop of `run_continuous` ends:
normally, by `KeyboardInterrupt`, or by an unexpected exception (whose
message is carried). -/
inductive LoopEvent where
  | normal
  | interrupt
  | unexpected (msg : String)
deriving Repr, DecidableEq

/-- The `while True` loop of `run_continuous`, observed for a finite list
of iteration outcomes.  A normal iteration runs the whole cycle and then
sleeps `interval_minutes * 60` seconds; `KeyboardInterrupt` logs and breaks;
any other exception is caught, logged, followed by the fixed 300-second
recovery sleep, and the loop continues (an iteration ending in an
unexpected error abstracts away the truncated cycle output before the raise). -/
def continuousLoop (interval_minutes : Int) (env : Activity → ActResult) :
    List LoopEvent → Rng → List Ev × Rng
  | [], g => ([], g)
  | .normal :: rest, g =>
    let c := run_single_cycle env g
    let r := continuousLoop interval_minutes env rest c.2
    (c.1 ++ [.log "Next update cycle scheduled", .sleep (interval_minutes * 60)] ++ r.1, r.2)
  | .interrupt :: _, g => ([.log "Stopping continuous mode..."], g)
  | .unexpected m :: rest, g =>
    let r := continuousLoop interval_minutes env rest g
    ([.err ("Unexpected error: " ++ m),
      .log "Waiting 5 minutes before retry...", .sleep 300] ++ r.1, r.2)

/-- Embeds `run_continuous`: the start log, then the loop. -/
def run_continuous (interval_minutes : Int) (env : Activity → ActResult)
    (events : List LoopEvent) (g : Rng) : List Ev × Rng :=
  let r := continuousLoop interval_minutes env events g
  (.log ("Starting continuous mode with " ++ toString interval_minutes ++ " minute intervals") :: r.1, r.2)

/-- Run modes accepted by `--mode`. -/
inductive Mode where
  | single
  | continuous
deriving Repr, DecidableEq

/-- Rendered mode string. -/
def modeStr : Mode → String
  | .single => "single"
  | .continuous => "continuous"

/-- The `automation.activities` config sub-dict; a missing key reads as the
default `True` via `.get(key, True)`. -/
structure ActivityToggles where
  create_issues : Option Bool := none
  create_prs : Option Bool := none
  create_content : Option Bool := none
deriving Repr, DecidableEq

/-- The `github` config sub-dict. -/
structure GithubConfig where
  token : Option String := none
  repo_name : Option String := none
deriving Repr, DecidableEq

/-- The `automation` config sub-dict. -/
structure AutomationConfig where
  continuous : Option Bool := none
  interval_minutes : Option Int := none
  base_directory : Option String := none
  activities : ActivityToggles := {}
deriving Repr, DecidableEq

/-- A parsed configuration file. -/
structure Config where
  github : GithubConfig := {}
  automation : AutomationConfig := {}
deriving Repr, DecidableEq

/-- Parsed command-line arguments (`None` = flag absent). -/
structure Args where
  token : Option String := none
  repo : Option String := none
  mode : Option Mode := none
  interval : Option Int := none
  base_dir : Option String := none
  no_config : Bool := false
deriving Repr, DecidableEq

/-- Python truthiness of an optional string: `None` and `""` are falsy. -/
def truthyS : Option String → Bool
  | none => false
  | some s => decide (s ≠ "")

/-- Python truthiness of an optional int: `None` and `0` are falsy. -/
def truthyI : Option Int → Bool
  | none => false
  | some n => decide (n ≠ 0)

/-- Python `a or b` on optional strings. -/
def pyOrStr (a b : Option String) : Option String := if truthyS a then a else b

/-- Python `a or b` where `b` is a plain int (the config lookup with its
default already applied). -/
def pyOrInt (a : Option Int) (b : Int) : Int :=
  match a with
  | some n => if n = 0 then b else n
  | none => b

/-- The `Configuration loaded:` log block of `main` (lines 780–785). -/
def configLogPart (repo : String) (mode : Mode) (base_dir : String) (interval : Int) : List Ev :=
  [.log "Configuration loaded:",
   .log ("  Repository: " ++ repo),
   .log ("  Mode: " ++ modeStr mode),
   .log ("  Base Directory: " ++ base_dir)] ++
  (if mode = .continuous then [.log ("  Interval: " ++ toString interval ++ " minutes")] else [])

/-- The informational toggle logs of `main` (lines 791–802): each disabled
toggle is logged; nothing else is done with them. -/
def toggleLogs (cfg : Option Config) : List Ev :=
  match cfg with
  | none => []
  | some c =>
    (if (c.automation.activities.create_issues.getD true) = false then
      [Ev.log "Issue creation disabled by configuration"] else []) ++
    (if (c.automation.activities.create_prs.getD true) = false then
      [Ev.log "Pull request creation disabled by configuration"] else []) ++
    (if (c.automation.activities.create_content.getD true) = false then
      [Ev.log "Content creation disabled by configuration"] else [])

/-- Tail of `main` after the configuration values are resolved: validate
token and repository, log the configuration, construct the updater
(`initOk` says whether `GitHubUpdater(...)` succeeds; on failure the
`except` handler returns 1), log the toggles, and run the chosen mode.
Returns the return value of the `main` function and the trace.  Note that
this Nat is only the function's return value: the module entry point
(lines 816–817) calls `main()` bare and discards it, with no `sys.exit`,
see `scriptEntryPoint`. -/
def mainResolved (token repo : Option String) (mode : Mode) (interval : Int)
    (base_dir : Option String) (cfg : Option Config) (initOk : Bool)
    (env : Activity → ActResult) (g : Rng) (events : List LoopEvent) : Nat × List Ev :=
  if truthyS token = false then
    (1, [.err "GitHub token is required (provide via config file or --token)"])
  else if truthyS repo = false then
    (1, [.err "Repository name is required (provide via config file or --repo)"])
  else
    let logs := configLogPart (repo.getD "") mode (base_dir.getD "") interval
    if initOk = false then
      (1, logs ++ [.err "Failed to initialize GitHub updater"])
    else
      match mode with
      | .single => (0, logs ++ toggleLogs cfg ++ (run_single_cycle env g).1)
      | .continuous => (0, logs ++ toggleLogs cfg ++ (run_continuous interval env events g).1)

/-- Embeds the `main` function: load/skip the config file (`cfg` is the
parse result, `none` when missing or malformed), check the early guard of
line 750, merge CLI values over config values with Python `or`, then hand
over to the resolved tail.  The Nat component is `main`'s return value (1
on validation or initialisation failure), not the process exit status: see
`scriptEntryPoint` for what the interpreter actually exits with. -/
def main (args : Args) (cfg : Option Config) (initOk : Bool)
    (env : Activity → ActResult) (g : Rng) (events : List LoopEvent) : Nat × List Ev :=
  if !args.no_config && cfg.isNone && !(truthyS args.token && truthyS args.repo) then
    (1, [.err "Either provide a valid config file or use --token and --repo arguments"])
  else
    let config : Option Config := if args.no_config then none else cfg
    match config with
    | some c =>
      mainResolved (pyOrStr args.token c.github.token) (pyOrStr args.repo c.github.repo_name)
        (args.mode.getD (if c.automation.continuous.getD false then .continuous else .single))
        (pyOrInt args.interval (c.automation.interval_minutes.getD 60))
        (pyOrStr args.base_dir (some (c.automation.base_directory.getD ".")))
        (some c) initOk env g events
    | none =>
      if !truthyS args.token || !truthyS args.repo then
        (1, [.err "Token and repository are required when not using config file"])
      else
        mainResolved args.token args.repo (args.mode.getD .single) (pyOrInt args.interval 60)
          (pyOrStr args.base_dir (some ".")) none initOk env g events

/-- Embeds the module entry point (lines 816–817):
`if __name__ == '__main__': main()` calls `main()` bare and discards its
return value; there is no `sys.exit`, so when `main` returns (rather than
raising) the interpreter exits with process status 0 regardless of the
value `main` returned.  The trace is unchanged. -/
def scriptEntryPoint (args : Args) (cfg : Option Config) (initOk : Bool)
    (env : Activity → ActResult) (g : Rng) (events : List LoopEvent) : Nat × List Ev :=
  let r := main args cfg initOk env g events
  (0, r.2)

/-- Recognises activity-invocation events in a trace. -/
def isExecStart : Ev → Bool
  | .execStart _ => true
  | _ => false

section CycleLemmas

lemma activityBlock_filter (env : Activity → ActResult) (a : Activity) :
    (activityBlock env a).filter isExecStart = [Ev.execStart a] := by
  cases h : env a with
  | ok b => cases b <;> simp [activityBlock, h, isExecStart]
  | raised e => simp [activityBlock, h, isExecStart]

lemma cycleLoop_filter (env : Activity → ActResult) (sel : List Activity) (g : Rng) :
    ((cycleLoop env sel g).1).filter isExecStart = sel.map Ev.execStart := by
  induction sel generalizing g with
  | nil => simp [cycleLoop]
  | cons a rest ih =>
    simp [cycleLoop, List.filter_append, activityBlock_filter, isExecStart, ih]

lemma run_single_cycle_filter (env : Activity → ActResult) (g : Rng) :
    ((run_single_cycle env g).1).filter isExecStart = (selectActivities g).1.map Ev.execStart := by
  simp [run_single_cycle, List.filter_append, cycleLoop_filter, isExecStart]

lemma selectActivities_length (g : Rng) :
    1 ≤ (selectActivities g).1.length ∧ (selectActivities g).1.length ≤ 3 := by
  have hk := randint_le 1 cycleActivityList.length g (by decide)
  have hlen : (selectActivities g).1.length =
      min ((randint 1 cycleActivityList.length g).1) 3 := by
    simp [selectActivities, sample_length, cycleActivityList]
  omega

lemma cycleLoop_block_mem (env : Activity → ActResult) (sel : List Activity) (g : Rng)
    (a : Activity) (ha : a ∈ sel) (ev : Ev) (hev : ev ∈ activityBlock env a) :
    ev ∈ (cycleLoop env sel g).1 := by
  induction sel generalizing g with
  | nil => cases ha
  | cons b rest ih =>
    rcases List.mem_cons.mp ha with h | h
    · subst h
      simp only [cycleLoop, List.mem_append]
      exact Or.inl (Or.inl hev)
    · simp only [cycleLoop, List.mem_append]
      exact Or.inr (ih _ h)

end CycleLemmas

/-- C3: every invocation of `run_single_cycle` executes at least 1 and at
most 3 activities, drawn without replacement (no duplicates) from the fixed
activity set, and the trace invokes exactly the selected activities in
their selected (random) order, one after the other. -/
theorem run_single_cycle_activity_bounds (env : Activity → ActResult) (g : Rng) :
    (1 ≤ (selectActivities g).1.length ∧ (selectActivities g).1.length ≤ 3) ∧
    ((selectActivities g).1).Nodup ∧
    (selectActivities g).1 ⊆ cycleActivityList ∧
    ((run_single_cycle env g).1).filter isExecStart = (selectActivities g).1.map Ev.execStart := by
  refine ⟨selectActivities_length g, ?_, ?_, run_single_cycle_filter env g⟩
  · exact sample_nodup _ _ _ (by decide)
  · exact sample_subset _ _ _

/-- Witness for C3 at a concrete oracle: with nat stream `[2,0,0,0,0,0,0]`
the cycle selects all three activities and the trace invokes exactly them. -/
theorem run_single_cycle_activity_bounds_witness :
    ((run_single_cycle (fun _ => ActResult.ok true) (Rng.mk [2, 0, 0, 0, 0, 0, 0] [])).1).filter
        isExecStart =
      (selectActivities (Rng.mk [2, 0, 0, 0, 0, 0, 0] [])).1.map Ev.execStart :=
  (run_single_cycle_activity_bounds (fun _ => ActResult.ok true)
    (Rng.mk [2, 0, 0, 0, 0, 0, 0] [])).2.2.2

/-- C4: no per-activity runtime failure propagates past the cycle boundary:
a failing git command makes `git_commit_and_push` return `False` (the
`CalledProcessError` is caught there), and in `run_single_cycle` an activity
that raises any exception has the error caught and logged while every
selected activity — those after the failing one included — is still
invoked exactly as selected. -/
theorem activity_failures_contained (run : List String → Bool) (filename : String)
    (env : Activity → ActResult) (g gc : Rng) :
    (git_commit_and_push run filename gc).1.1 =
      (run (addCmd filename) &&
        (run (commitCmd ((choice (commit_messages filename) gc).1)) && run pushMainCmd)) ∧
    (∀ a, a ∈ (selectActivities g).1 → ∀ e : PyExc, env a = .raised e →
      Ev.err ("Error in " ++ activityName a ++ ": " ++ e.text) ∈ (run_single_cycle env g).1) ∧
    ((run_single_cycle env g).1).filter isExecStart = (selectActivities g).1.map Ev.execStart := by
  refine ⟨?_, ?_, run_single_cycle_filter env g⟩
  · simp only [git_commit_and_push]
    rw [runSeq_ok]
    simp [List.all]
  · intro a ha e he
    have hmem : Ev.err ("Error in " ++ activityName a ++ ": " ++ e.text) ∈ activityBlock env a := by
      simp [activityBlock, he]
    have hb := cycleLoop_block_mem env (selectActivities g).1 (selectActivities g).2 a ha _ hmem
    simp only [run_single_cycle, List.mem_cons, List.mem_append, List.mem_singleton]
    tauto

/-- Witness for C4: with a concrete oracle selecting all three activities
and an environment in which the issue activity raises, the error line is in
the cycle trace. -/
theorem activity_failures_contained_witness :
    Ev.err ("Error in " ++ activityName Activity.openIssue ++ ": " ++
        (PyExc.githubException "boom").text) ∈
      (run_single_cycle
        (fun a => if a = Activity.openIssue then ActResult.raised (PyExc.githubException "boom")
          else ActResult.ok true)
        (Rng.mk [2, 0, 0, 0, 0, 0, 0] [])).1 :=
  (activity_failures_contained (fun _ => true) "f"
      (fun a => if a = Activity.openIssue then ActResult.raised (PyExc.githubException "boom")
        else ActResult.ok true)
      (Rng.mk [2, 0, 0, 0, 0, 0, 0] []) (Rng.mk [] [])).2.1
    Activity.openIssue (by decide) (PyExc.githubException "boom") rfl

lemma all_eq_false_of_dropWhile_ne_nil (p : α → Bool) (l : List α)
    (h : l.dropWhile p ≠ []) : l.all p = false := by
  cases hb : l.all p
  · rfl
  · exact absurd (List.dropWhile_eq_nil_iff.mpr fun x hx => List.all_eq_true.mp hb x hx) h

/-- C5: in the PR activity, a failing step aborts all remaining steps of
the activity: the activity returns `False`, the trace holds exactly the
steps up to and including the first failing one followed by a single
best-effort recovery checkout, and the recovery attempt's own outcome is
swallowed (the result is `False` either way). -/
theorem create_and_merge_pr_failure (env : PrStep → Bool) (recoveryOk : Bool)
    (clock : Clock) (g : Rng) (h : prSteps.dropWhile (effStep env) ≠ []) :
    (create_and_merge_pr env recoveryOk clock g).1.1 = false ∧
    (∃ branch_name filename title,
      (create_and_merge_pr env recoveryOk clock g).1.2 =
        ((prSteps.takeWhile (effStep env) ++ (prSteps.dropWhile (effStep env)).take 1).map
          (prStepEv branch_name filename title)) ++ [.recovery prRecoveryCmd recoveryOk]) ∧
    (∀ r' : Bool, (create_and_merge_pr env r' clock g).1.1 = false) := by
  have h2 : (runSeq (effStep env) prSteps).2 = false := by
    rw [runSeq_ok]
    exact all_eq_false_of_dropWhile_ne_nil _ _ h
  refine ⟨?_, ?_, ?_⟩
  · simp [create_and_merge_pr, h2]
  · simp only [create_and_merge_pr, h2, Bool.false_eq_true, if_false]
    exact ⟨_, _, _, by rw [runSeq_exec]⟩
  · intro r'
    simp [create_and_merge_pr, h2]

/-- Witness for C5: with every step failing from the merge on, the concrete
run returns `False`. -/
theorem create_and_merge_pr_failure_witness :
    (create_and_merge_pr (fun s => decide (s ≠ PrStep.mergePull)) true
        (Clock.mk "T" "T" "T" "T" "T") (Rng.mk [] [])).1.1 = false :=
  (create_and_merge_pr_failure (fun s => decide (s ≠ PrStep.mergePull)) true
      (Clock.mk "T" "T" "T" "T" "T") (Rng.mk [] []) (by decide)).1

lemma runSeq_subset (p : α → Bool) (l : List α) : (runSeq p l).1 ⊆ l := by
  induction l with
  | nil => simp [runSeq]
  | cons c cs ih =>
    cases hp : p c
    · simp [runSeq, hp]
    · simp only [runSeq, hp, if_true]
      intro x hx
      rcases List.mem_cons.mp hx with h1 | h1
      · exact h1 ▸ List.mem_cons_self _ _
      · exact List.mem_cons_of_mem _ (ih h1)

lemma prStepEv_createPull_base (bn fn ttl : String) (s : PrStep) (t b hd bs : String)
    (h : prStepEv bn fn ttl s = .createPull t b hd bs) : bs = "main" := by
  cases s <;> simp [prStepEv] at h
  exact h.2.2.2.symm

lemma prStepEv_ne_recovery (bn fn ttl : String) (s : PrStep) (cmd : List String) (ok : Bool) :
    prStepEv bn fn ttl s ≠ .recovery cmd ok := by
  cases s <;> simp [prStepEv]

/-- C9: the integration branch every activity targets is the fixed literal
`main`, independent of run and configuration: the commit-content push
command targets `main` and the executed commands come only from the fixed
add/commit/push-to-main sequence; every pull request any run opens has base
branch `main`; and every recovery attempt checks out `main`. -/
theorem default_branch_fixed_main (env : PrStep → Bool) (recoveryOk : Bool) (clock : Clock)
    (g : Rng) (run : List String → Bool) (filename : String) (gc : Rng) :
    pushMainCmd = ["git", "push", "origin", "main"] ∧
    (git_commit_and_push run filename gc).1.2 ⊆
      [addCmd filename, commitCmd ((choice (commit_messages filename) gc).1), pushMainCmd] ∧
    (∀ t b hd bs, PrEv.createPull t b hd bs ∈ (create_and_merge_pr env recoveryOk clock g).1.2 →
      bs = "main") ∧
    (∀ cmd ok, PrEv.recovery cmd ok ∈ (create_and_merge_pr env recoveryOk clock g).1.2 →
      cmd = ["git", "checkout", "main"]) := by
  refine ⟨rfl, ?_, ?_, ?_⟩
  · simp only [git_commit_and_push]
    exact runSeq_subset _ _
  · intro t b hd bs hmem
    simp only [create_and_merge_pr] at hmem
    rcases hif : (runSeq (effStep env) prSteps).2 with _ | _ <;> rw [hif] at hmem <;> simp at hmem
    · rcases hmem with ⟨s, _, hs⟩
      exact prStepEv_createPull_base _ _ _ s t b hd bs hs
    · rcases hmem with ⟨s, _, hs⟩
      exact prStepEv_createPull_base _ _ _ s t b hd bs hs
  · intro cmd ok hmem
    simp only [create_and_merge_pr] at hmem
    rcases hif : (runSeq (effStep env) prSteps).2 with _ | _ <;> rw [hif] at hmem <;> simp at hmem
    · rcases hmem with ⟨s, _, hs⟩ | ⟨hc, _⟩
      · exact absurd hs (prStepEv_ne_recovery _ _ _ s cmd ok)
      · exact hc ▸ rfl
    · rcases hmem with ⟨s, _, hs⟩
      exact absurd hs (prStepEv_ne_recovery _ _ _ s cmd ok)

set_option maxRecDepth 10000 in
/-- Witness for C9: the pull request opened by a concrete successful run has
base branch `main`. -/
theorem default_branch_fixed_main_witness :
    ("main" : String) = "main" :=
  (default_branch_fixed_main (fun _ => true) true (Clock.mk "T" "T" "T" "T" "T") (Rng.mk [] [])
      (fun _ => true) "f" (Rng.mk [] [])).2.2.1
    "Add new feature: gen_contents/data_T.md" (pr_body "gen_contents/data_T.md")
    "feature/new-component-100" "main" (by decide)

lemma str_append_ne_of_getD (x s y : String) (i : Nat) (hi : i < x.data.length)
    (hne : x.data.getD i ' ' ≠ y.data.getD i ' ') : x ++ s ≠ y := by
  intro he
  apply hne
  have hd : (x ++ s).data = y.data := by rw [he]
  rw [str_data_append] at hd
  calc x.data.getD i ' ' = (x.data ++ s.data).getD i ' ' := by
        rw [List.getD_append _ _ _ _ hi]
    _ = y.data.getD i ' ' := by rw [hd]

lemma startLog_not_mem_activityBlock (env : Activity → ActResult) (a : Activity) :
    Ev.log "Starting update cycle..." ∉ activityBlock env a := by
  have hexe : ("Executing: " ++ activityName a) ≠ "Starting update cycle..." :=
    str_append_ne_of_getD _ _ _ 0 (by decide) (by decide)
  have hcom : ("Completed: " ++ activityName a) ≠ "Starting update cycle..." :=
    str_append_ne_of_getD _ _ _ 0 (by decide) (by decide)
  cases h : env a with
  | ok b =>
    cases b
    · intro hmem
      simp [activityBlock, h] at hmem
      exact hexe hmem.symm
    · intro hmem
      simp [activityBlock, h] at hmem
      rcases hmem with h1 | h1
      · exact hexe h1.symm
      · exact hcom h1.symm
  | raised e =>
    intro hmem
    simp [activityBlock, h] at hmem
    exact hexe hmem.symm

lemma startLog_not_mem_cycleLoop (env : Activity → ActResult) (sel : List Activity) (g : Rng) :
    Ev.log "Starting update cycle..." ∉ (cycleLoop env sel g).1 := by
  induction sel generalizing g with
  | nil => simp [cycleLoop]
  | cons a rest ih =>
    intro hmem
    simp [cycleLoop, List.mem_append, List.singleton_append, List.mem_cons] at hmem
    rcases hmem with h1 | h1
    · exact startLog_not_mem_activityBlock env a h1
    · exact ih _ h1

lemma run_single_cycle_count_start (env : Activity → ActResult) (g : Rng) :
    ((run_single_cycle env g).1).count (Ev.log "Starting update cycle...") = 1 := by
  simp only [run_single_cycle, List.count_cons, List.count_append]
  rw [List.count_eq_zero.mpr (startLog_not_mem_cycleLoop env _ _)]
  simp

/-- Iteration pattern the spec describes for error-free continuous mode:
run `run_single_cycle` exactly once, then sleep until `interval` minutes
have elapsed, and repeat; used as the comparison target for C6. -/
def specNormalIterations (interval_minutes : Int) (env : Activity → ActResult) :
    Nat → Rng → List Ev × Rng
  | 0, g => ([], g)
  | n + 1, g =>
    let c := run_single_cycle env g
    let r := specNormalIterations interval_minutes env n c.2
    (c.1 ++ [.log "Next update cycle scheduled", .sleep (interval_minutes * 60)] ++ r.1, r.2)

lemma continuousLoop_normal_shape (interval : Int) (env : Activity → ActResult)
    (events : List LoopEvent) (g : Rng) (h : ∀ e ∈ events, e = .normal) :
    continuousLoop interval env events g = specNormalIterations interval env events.length g := by
  induction events generalizing g with
  | nil => rfl
  | cons e rest ih =>
    have he : e = .normal := h e (List.mem_cons_self _ _)
    subst he
    simp only [continuousLoop, List.length_cons, specNormalIterations]
    rw [ih _ (fun e' he' => h e' (List.mem_cons_of_mem _ he'))]

lemma continuousLoop_count_start (interval : Int) (env : Activity → ActResult)
    (events : List LoopEvent) (g : Rng) (h : ∀ e ∈ events, e = .normal) :
    ((continuousLoop interval env events g).1).count (Ev.log "Starting update cycle...") =
      events.length := by
  induction events generalizing g with
  | nil => simp [continuousLoop]
  | cons e rest ih =>
    have he : e = .normal := h e (List.mem_cons_self _ _)
    subst he
    simp only [continuousLoop, List.count_append, List.length_cons]
    rw [run_single_cycle_count_start, ih _ (fun e' he' => h e' (List.mem_cons_of_mem _ he'))]
    simp [List.count_cons]
    omega

/-- C6: under error-free, uninterrupted iterations, each iteration of
`run_continuous` invokes `run_single_cycle` exactly once and then sleeps
`interval * 60` seconds before the next invocation: the trace equals the
start log followed by the once-per-interval iteration pattern, and the
cycle-start line occurs exactly once per iteration. -/
theorem run_continuous_normal_once_per_interval (interval : Int) (env : Activity → ActResult)
    (events : List LoopEvent) (g : Rng) (h : ∀ e ∈ events, e = .normal) :
    (run_continuous interval env events g).1 =
      Ev.log ("Starting continuous mode with " ++ toString interval ++ " minute intervals") ::
        (specNormalIterations interval env events.length g).1 ∧
    ((run_continuous interval env events g).1).count (Ev.log "Starting update cycle...") =
      events.length := by
  have hne : Ev.log "Starting update cycle..." ≠
      Ev.log ("Starting continuous mode with " ++ (toString interval ++ " minute intervals")) := by
    intro hq
    have hq' := (Ev.log.injEq _ _).mp hq
    exact str_append_ne_of_getD "Starting continuous mode with "
      (toString interval ++ " minute intervals") "Starting update cycle..." 9
      (by decide) (by decide) hq'.symm
  constructor
  · simp only [run_continuous]
    rw [continuousLoop_normal_shape interval env events g h]
  · simp only [run_continuous, List.count_cons]
    rw [continuousLoop_count_start interval env events g h]
    have hne' : (Ev.log ("Starting continuous mode with " ++ toString interval ++ " minute intervals") ==
        Ev.log "Starting update cycle...") = false := by
      rw [beq_eq_false_iff_ne]
      intro hq
      exact hne hq.symm
    rw [hne']
    simp

/-- Witness for C6 at two concrete normal iterations. -/
theorem run_continuous_normal_once_per_interval_witness :
    ((run_continuous 60 (fun _ => ActResult.ok true) [LoopEvent.normal, LoopEvent.normal]
        (Rng.mk [] [])).1).count (Ev.log "Starting update cycle...") = 2 :=
  (run_continuous_normal_once_per_interval 60 (fun _ => ActResult.ok true)
    [LoopEvent.normal, LoopEvent.normal] (Rng.mk [] []) (by decide)).2

/-- C7: an unexpected error in an iteration of the continuous loop is
caught: it is logged, followed by the fixed 300-second (5-minute) recovery
sleep, and the loop retries with the remaining iterations; an interrupt at
the loop boundary logs the stop message and terminates the loop cleanly,
executing nothing further. -/
theorem run_continuous_error_and_interrupt (interval : Int) (env : Activity → ActResult)
    (m : String) (rest : List LoopEvent) (g : Rng) :
    (continuousLoop interval env (.unexpected m :: rest) g).1 =
      [.err ("Unexpected error: " ++ m), .log "Waiting 5 minutes before retry...", .sleep 300] ++
        (continuousLoop interval env rest g).1 ∧
    (continuousLoop interval env (.interrupt :: rest) g).1 = [.log "Stopping continuous mode..."] ∧
    (run_continuous interval env (.interrupt :: rest) g).1 =
      [.log ("Starting continuous mode with " ++ toString interval ++ " minute intervals"),
       .log "Stopping continuous mode..."] :=
  ⟨rfl, rfl, rfl⟩

lemma toggleLogs_filter (cfg : Option Config) : (toggleLogs cfg).filter isExecStart = [] := by
  cases cfg with
  | none => rfl
  | some c =>
    simp only [toggleLogs]
    split_ifs <;> simp [isExecStart]

lemma mainResolved_cfg_exec_invariant (token repo : Option String) (mode : Mode) (interval : Int)
    (base_dir : Option String) (cfg1 cfg2 : Option Config) (initOk : Bool)
    (env : Activity → ActResult) (g : Rng) (events : List LoopEvent) :
    (mainResolved token repo mode interval base_dir cfg1 initOk env g events).1 =
      (mainResolved token repo mode interval base_dir cfg2 initOk env g events).1 ∧
    ((mainResolved token repo mode interval base_dir cfg1 initOk env g events).2).filter isExecStart =
      ((mainResolved token repo mode interval base_dir cfg2 initOk env g events).2).filter
        isExecStart := by
  simp only [mainResolved]
  split_ifs
  · exact ⟨rfl, rfl⟩
  · exact ⟨rfl, rfl⟩
  · exact ⟨rfl, rfl⟩
  · cases mode <;> exact ⟨rfl, by simp [List.filter_append, toggleLogs_filter]⟩

/-- Configuration equal to `c` except for the three activity toggles. -/
def withToggles (c : Config) (t : ActivityToggles) : Config :=
  { c with automation := { c.automation with activities := t } }

/-- C2: the per-activity enable toggles never affect which activities
`run_single_cycle` selects or executes: two configurations differing only
in the three toggle booleans produce the same exit code and the same
sequence of activity invocations (the toggles are only read and logged). -/
theorem toggles_never_affect_activities (args : Args) (c : Config) (t1 t2 : ActivityToggles)
    (initOk : Bool) (env : Activity → ActResult) (g : Rng) (events : List LoopEvent) :
    (main args (some (withToggles c t1)) initOk env g events).1 =
      (main args (some (withToggles c t2)) initOk env g events).1 ∧
    ((main args (some (withToggles c t1)) initOk env g events).2).filter isExecStart =
      ((main args (some (withToggles c t2)) initOk env g events).2).filter isExecStart := by
  cases hnc : args.no_config with
  | true => simp [main, hnc]
  | false =>
    have hmain : ∀ t : ActivityToggles,
        main args (some (withToggles c t)) initOk env g events =
          mainResolved (pyOrStr args.token c.github.token) (pyOrStr args.repo c.github.repo_name)
            (args.mode.getD (if c.automation.continuous.getD false then .continuous else .single))
            (pyOrInt args.interval (c.automation.interval_minutes.getD 60))
            (pyOrStr args.base_dir (some (c.automation.base_directory.getD ".")))
            (some (withToggles c t)) initOk env g events := by
      intro t
      simp [main, hnc, withToggles]
    constructor
    · rw [hmain t1, hmain t2]
      exact (mainResolved_cfg_exec_invariant _ _ _ _ _ _ _ _ _ _ _).1
    · rw [hmain t1, hmain t2]
      exact (mainResolved_cfg_exec_invariant _ _ _ _ _ _ _ _ _ _ _).2

/-- C1 (code bug): if the GitHub token is falsy on the command line and
falsy in (or absent from) the configuration, no activity is ever invoked
and the `main` function returns 1 as the documented exit-code contract
intends — but the module entry point calls `main()` bare, discarding that
return value without `sys.exit`, so the process actually exits with
status 0, contradicting the claimed exit code 1. -/
theorem main_missing_token_returns_one_but_process_exits_zero (args : Args)
    (cfg : Option Config) (initOk : Bool)
    (env : Activity → ActResult) (g : Rng) (events : List LoopEvent)
    (htok : truthyS args.token = false)
    (hcfg : ∀ c, cfg = some c → truthyS c.github.token = false) :
    (main args cfg initOk env g events).1 = 1 ∧
    ((main args cfg initOk env g events).2).filter isExecStart = [] ∧
    (scriptEntryPoint args cfg initOk env g events).1 = 0 ∧
    ((scriptEntryPoint args cfg initOk env g events).2).filter isExecStart = [] := by
  have hmain : (main args cfg initOk env g events).1 = 1 ∧
      ((main args cfg initOk env g events).2).filter isExecStart = [] := by
    cases hnc : args.no_config with
    | true => simp [main, hnc, htok, isExecStart]
    | false =>
      cases hc : cfg with
      | none => simp [main, hnc, htok, isExecStart]
      | some c =>
        have hct := hcfg c hc
        simp [main, hnc, htok, mainResolved, pyOrStr, hct, isExecStart]
  exact ⟨hmain.1, hmain.2, rfl, hmain.2⟩

/-- Witness for C1 at the failing input: empty command line against a
config file with no `github.token` makes `main` return 1 with no activity
run, yet the process exit status is 0. -/
theorem main_missing_token_returns_one_but_process_exits_zero_witness :
    (main {} (some {}) true (fun _ => ActResult.ok true) (Rng.mk [] []) []).1 = 1 ∧
    (scriptEntryPoint {} (some {}) true (fun _ => ActResult.ok true) (Rng.mk [] []) []).1 = 0 :=
  ⟨(main_missing_token_returns_one_but_process_exits_zero {} (some {}) true
      (fun _ => ActResult.ok true) (Rng.mk [] []) []
      (by decide) (fun c hc => by cases hc; decide)).1,
   (main_missing_token_returns_one_but_process_exits_zero {} (some {}) true
      (fun _ => ActResult.ok true) (Rng.mk [] []) []
      (by decide) (fun c hc => by cases hc; decide)).2.2.1⟩

/-- C10: `main` merges command-line values with config values using Python
truthiness, so a falsy CLI value (`--interval 0`, empty `--token`,
`--repo`, or `--base-dir`) behaves exactly as if the flag were absent: the
whole run (exit code and trace) is identical. -/
theorem falsy_cli_values_treated_as_absent (args : Args) (cfg : Option Config) (initOk : Bool)
    (env : Activity → ActResult) (g : Rng) (events : List LoopEvent) :
    main { args with interval := some 0 } cfg initOk env g events =
      main { args with interval := none } cfg initOk env g events ∧
    main { args with token := some "" } cfg initOk env g events =
      main { args with token := none } cfg initOk env g events ∧
    main { args with repo := some "" } cfg initOk env g events =
      main { args with repo := none } cfg initOk env g events ∧
    main { args with base_dir := some "" } cfg initOk env g events =
      main { args with base_dir := none } cfg initOk env g events := by
  refine ⟨?_, ?_, ?_, ?_⟩ <;>
    cases hc : cfg <;>
      simp [main, mainResolved, truthyS, truthyI, pyOrStr, pyOrInt]

lemma str_ext (a b : String) (h : a.data = b.data) : a = b :=
  congrArg String.mk h

lemma str_append_assoc (a b c : String) : a ++ b ++ c = a ++ (b ++ c) :=
  str_ext _ _ (by simp [str_data_append, List.append_assoc])

set_option maxRecDepth 40000 in
lemma generate_markdown_content_ne_empty (clock : Clock) (g : Rng) :
    (generate_markdown_content clock g).1 ≠ "" := by
  unfold generate_markdown_content
  repeat apply str_append_ne_empty
  decide

lemma generate_text_content_ne_empty (clock : Clock) (g : Rng) :
    (generate_text_content clock g).1 ≠ "" := by
  unfold generate_text_content
  apply pyJoin_cons_ne_empty
  exact str_append_ne_empty _ _ (by decide)

set_option maxRecDepth 40000 in
lemma generate_python_content_ne_empty (clock : Clock) (g : Rng) :
    (generate_python_content clock g).1 ≠ "" := by
  unfold generate_python_content
  repeat apply str_append_ne_empty
  decide

set_option maxRecDepth 40000 in
lemma generate_js_content_ne_empty (clock : Clock) (g : Rng) :
    (generate_js_content clock g).1 ≠ "" := by
  unfold generate_js_content
  repeat apply str_append_ne_empty
  decide

lemma pyJsonDumps2_obj_cons_ne_empty (f : String × JVal) (fs : List (String × JVal)) :
    pyJsonDumps2 (.jobj (f :: fs)) ≠ "" := by
  unfold pyJsonDumps2 dumpVal
  repeat apply str_append_ne_empty
  decide

set_option maxRecDepth 40000 in
lemma generate_json_content_ne_empty (clock : Clock) (g : Rng) :
    (generate_json_content clock g).1 ≠ "" := by
  unfold generate_json_content
  apply pyJsonDumps2_obj_cons_ne_empty

lemma file_templates_ne_empty (k : String) (hk : k ∈ file_template_keys)
    (clock : Clock) (g : Rng) : (file_templates k clock g).1 ≠ "" := by
  fin_cases hk
  · exact generate_markdown_content_ne_empty clock g
  · exact generate_json_content_ne_empty clock g
  · exact generate_text_content_ne_empty clock g
  · exact generate_python_content_ne_empty clock g
  · exact generate_js_content_ne_empty clock g

/-- Extension table as the claim states it (C8): markdown has `.md`, json
`.json`, text `.txt`, python `.py`, javascript `.js`; compared against the
source's `extensions` dict. -/
def expectedExtension (kind : String) : String :=
  if kind = "markdown" then ".md"
  else if kind = "json" then ".json"
  else if kind = "text" then ".txt"
  else if kind = "python" then ".py"
  else if kind = "javascript" then ".js"
  else ""

/-- C8: for every content kind, `create_random_content` yields a filename
whose extension is that kind's expected extension and a non-empty file
content: the drawn kind is always one of the five, the returned path ends
in the kind's extension, the source extension table agrees with the
expected one, the payload is non-empty, and every kind is realisable by
some oracle. -/
theorem create_random_content_ext_nonempty (clock : Clock) (g : Rng) :
    chosenFileType g ∈ file_template_keys ∧
    (∃ stem, (create_random_content clock g).1.1 = stem ++ extensionFor (chosenFileType g)) ∧
    extensionFor (chosenFileType g) = expectedExtension (chosenFileType g) ∧
    (create_random_content clock g).1.2 ≠ "" ∧
    (∀ k, k ∈ file_template_keys → ∃ g' : Rng, chosenFileType g' = k) := by
  have hft : chosenFileType g ∈ file_template_keys := choice_mem _ _ (by decide)
  refine ⟨hft, ?_, ?_, ?_, ?_⟩
  · refine ⟨"gen_contents/" ++ ((choice prefixes (choice file_template_keys g).2).1 ++
      ("_" ++ clock.fileStamp)), ?_⟩
    simp only [create_random_content, chosenFileType]
    simp [str_append_assoc]
  · have hall : ∀ k, k ∈ file_template_keys → extensionFor k = expectedExtension k := by
      decide
    exact hall _ hft
  · show (file_templates (chosenFileType g) clock
      ((choice prefixes (choice file_template_keys g).2).2)).1 ≠ ""
    exact file_templates_ne_empty _ hft clock _
  · intro k hk
    fin_cases hk
    · exact ⟨Rng.mk [0] [], rfl⟩
    · exact ⟨Rng.mk [1] [], rfl⟩
    · exact ⟨Rng.mk [2] [], rfl⟩
    · exact ⟨Rng.mk [3] [], rfl⟩
    · exact ⟨Rng.mk [4] [], rfl⟩

/-- Witness for C8: the json kind is realised by a concrete oracle. -/
theorem create_random_content_ext_nonempty_witness :
    ∃ g' : Rng, chosenFileType g' = "json" :=
  (create_random_content_ext_nonempty (Clock.mk "T" "T" "T" "T" "T") (Rng.mk [] [])).2.2.2.2
    "json" (by decide)

end GithubUpdater
